import Mathlib

/-!
Shallow embedding of the building-estimator core:

* src/utils/calculations.py — quantity-takeoff formulas. Functions that involve
  only field arithmetic are embedded over ℚ (Python floats are modelled as exact
  rationals); functions that take a square root (roof area, and framing lumber
  which reuses it) are embedded over ℝ with Real.sqrt.
* src/core/photo_analyzer.py — the multi-photo feature aggregation
  (`analyze_multiple`). The per-image API call `analyze` is I/O and is elided;
  the aggregation is embedded as a pure function on the list of its results.

Python-specific primitives are modelled explicitly: `int(x)` truncates toward
zero (`pytrunc`), `math.ceil` is `⌈·⌉`, `str.lower()` is `str_lower`
(character-wise lowering, faithful for the ASCII enum strings used here), and
`sep.join` is `py_join`.
-/

namespace BuildingEstimator

/-- Python `int(x)`: truncation toward zero (floor for non-negative values,
ceiling for negative values). -/
def pytrunc {α : Type} [LinearOrderedField α] [FloorRing α] (x : α) : ℤ :=
  if 0 ≤ x then ⌊x⌋ else ⌈x⌉

/-- Python `str.lower()`, modelled as character-wise lowering of the underlying
character list (equivalent to `String.toLower`, written this way so that it
evaluates by `decide`). -/
def str_lower (s : String) : String := ⟨s.data.map Char.toLower⟩

/-- calculations.py `calculate_floor_area`: `length * width`. -/
def calculate_floor_area {α : Type} [Field α] (length width : α) : α :=
  length * width

/-- calculations.py `calculate_perimeter`: `2 * (length + width)`. -/
def calculate_perimeter {α : Type} [Field α] (length width : α) : α :=
  2 * (length + width)

/-- calculations.py `calculate_exterior_wall_area`:
`perimeter * wall_height * stories`. -/
def calculate_exterior_wall_area {α : Type} [Field α]
    (length width wall_height : α) (stories : ℤ) : α :=
  calculate_perimeter length width * wall_height * (stories : α)

/-- calculations.py `calculate_roof_area`: footprint times a style factor; flat
roofs use `footprint * 1.10`, pitched styles use
`footprint * sqrt(1 + (pitch/12)^2)` times a per-style factor. -/
noncomputable def calculate_roof_area (length width : ℝ) (roof_style : String)
    (roof_pitch : ℝ) : ℝ :=
  let footprint := length * width
  if str_lower roof_style = "flat" then
    footprint * 1.10
  else
    let pitch_multiplier := Real.sqrt (1 + (roof_pitch / 12) ^ 2)
    if str_lower roof_style = "gable" then
      footprint * pitch_multiplier
    else if str_lower roof_style = "hip" then
      footprint * pitch_multiplier * 1.12
    else if str_lower roof_style = "mansard" ∨ str_lower roof_style = "gambrel" then
      footprint * pitch_multiplier * 1.3
    else if str_lower roof_style = "shed" then
      footprint * pitch_multiplier * 0.95
    else
      footprint * pitch_multiplier

/-- calculations.py `calculate_foundation_concrete`: returns
`(cubic yards of concrete, linear feet of footer)`. -/
def calculate_foundation_concrete (length width : ℚ) (foundation_type : String)
    (footer_width footer_depth slab_thickness : ℚ) : ℚ × ℚ :=
  let perimeter := calculate_perimeter length width
  let footer_volume := perimeter * footer_width * footer_depth
  let total_cubic_feet :=
    if str_lower foundation_type = "slab" then
      footer_volume + length * width * slab_thickness
    else if str_lower foundation_type = "crawl" then
      footer_volume + perimeter * 2.0 * 0.67
    else if str_lower foundation_type = "basement" then
      footer_volume + perimeter * 8.0 * 0.83 + length * width * slab_thickness
    else
      footer_volume
  (total_cubic_feet / 27, perimeter)

/-- Result dictionary of calculations.py `calculate_framing_lumber`. -/
structure FramingLumber where
  studs_2x4 : ℤ
  studs_2x6 : ℤ
  plates_2x4_lf : ℤ
  headers_2x12_lf : ℤ
  floor_joists : ℤ
  floor_joist_size : String
  rim_joist_lf : ℤ
  rafters : ℤ
  wall_sheathing_sheets : ℤ
  roof_sheathing_sheets : ℤ
  floor_sheathing_sheets : ℤ

open Classical in
/-- calculations.py `calculate_framing_lumber`. The Python defaults
(`wall_height=9.0`, `stud_spacing=16.0`) are passed explicitly by callers of
this embedding; the internal call `calculate_roof_area(length, width, "gable")`
uses the Python default pitch `6.0`. -/
noncomputable def calculate_framing_lumber (length width : ℝ) (stories : ℤ)
    (wall_height stud_spacing : ℝ) : FramingLumber :=
  let perimeter := calculate_perimeter length width
  let floor_area := calculate_floor_area length width
  let interior_wall_lf := floor_area * 0.8
  let total_wall_lf := (perimeter + interior_wall_lf) * (stories : ℝ)
  let stud_spacing_feet := stud_spacing / 12
  let studs_per_lf := 1 / stud_spacing_feet
  let total_studs := pytrunc (total_wall_lf * studs_per_lf * 1.10)
  let plate_lf := total_wall_lf * 3
  let header_lf := total_wall_lf * 0.15
  let joist_spacing_feet : ℝ := 16 / 12
  let joist_size := if width ≤ 12 then "2x8" else if width ≤ 16 then "2x10" else "2x12"
  let joists_per_floor := pytrunc (length / joist_spacing_feet) + 1
  let total_joists := joists_per_floor * stories
  let rim_joist_lf := perimeter * (stories : ℝ)
  let rafter_count := pytrunc (length / joist_spacing_feet) + 1
  let wall_sheathing_sqft := calculate_exterior_wall_area length width wall_height stories
  let roof_sheathing_sqft := calculate_roof_area length width "gable" 6.0
  let floor_sheathing_sqft := floor_area * (stories : ℝ)
  let sheet_coverage : ℝ := 32 * 0.90
  { studs_2x4 := if wall_height ≤ 9 then total_studs else 0
    studs_2x6 := if wall_height > 9 then total_studs else 0
    plates_2x4_lf := pytrunc plate_lf
    headers_2x12_lf := pytrunc header_lf
    floor_joists := total_joists
    floor_joist_size := joist_size
    rim_joist_lf := pytrunc rim_joist_lf
    rafters := rafter_count * 2
    wall_sheathing_sheets := ⌈wall_sheathing_sqft / sheet_coverage⌉
    roof_sheathing_sheets := ⌈roof_sheathing_sqft / sheet_coverage⌉
    floor_sheathing_sheets := ⌈floor_sheathing_sqft / sheet_coverage⌉ }

/-- Result dictionary of calculations.py `calculate_hvac`. -/
structure Hvac where
  btu_required : ℤ
  tonnage : ℚ
  duct_lf : ℤ
  supply_registers : ℤ
  return_registers : ℤ

/-- calculations.py `calculate_hvac`'s BTU-per-sqft climate-zone table
(`.get(climate_zone, 30)`). -/
def btu_per_sqft (climate_zone : ℤ) : ℚ :=
  if climate_zone = 1 then 25 else if climate_zone = 2 then 25
  else if climate_zone = 3 then 22 else if climate_zone = 4 then 20
  else if climate_zone = 5 then 35 else if climate_zone = 6 then 40
  else if climate_zone = 7 then 45 else if climate_zone = 8 then 50 else 30

/-- calculations.py `calculate_hvac`. Python's `registers // 3` is floor
division, `Int.fdiv`. -/
def calculate_hvac (total_sqft : ℚ) (climate_zone : ℤ) : Hvac :=
  let btu_needed := total_sqft * btu_per_sqft climate_zone
  let tons_ac := btu_needed / 12000
  let system_size : ℚ :=
    if tons_ac ≤ 1.5 then 1.5 else if tons_ac ≤ 2 then 2
    else if tons_ac ≤ 2.5 then 2.5 else if tons_ac ≤ 3 then 3
    else if tons_ac ≤ 3.5 then 3.5 else if tons_ac ≤ 4 then 4 else 5
  let duct_lf := total_sqft * 0.5
  let registers := max 6 (pytrunc (total_sqft / 200))
  { btu_required := pytrunc btu_needed
    tonnage := system_size
    duct_lf := pytrunc duct_lf
    supply_registers := registers
    return_registers := max 2 (Int.fdiv registers 3) }

/-- calculations.py `calculate_exterior_materials`, as the returned
label-to-quantity dictionary (every value in the returned dicts is numeric). -/
def calculate_exterior_materials (length width wall_height : ℚ) (stories : ℤ)
    (exterior_type : String) (window_count door_count : ℤ) : List (String × ℚ) :=
  let wall_area := calculate_exterior_wall_area length width wall_height stories
  let window_area : ℚ := (window_count : ℚ) * 15
  let door_area : ℚ := (door_count : ℚ) * 20
  let net_wall_area := wall_area - window_area - door_area
  if str_lower exterior_type = "vinyl siding" ∨ str_lower exterior_type = "wood siding"
      ∨ str_lower exterior_type = "fiber cement" then
    [("siding_squares", ((⌈net_wall_area / 100 * 1.10⌉ : ℤ) : ℚ)),
     ("net_wall_sqft", net_wall_area),
     ("trim_lf", calculate_perimeter length width * (stories : ℚ) * 4),
     ("corners", 4 * (stories : ℚ))]
  else if str_lower exterior_type = "brick" then
    let bricks := pytrunc (net_wall_area * 7 * 1.05)
    [("bricks", (bricks : ℚ)),
     ("mortar_bags", ((⌈(bricks : ℚ) / 500⌉ : ℤ) : ℚ)),
     ("net_wall_sqft", net_wall_area),
     ("wall_ties", ((pytrunc (net_wall_area * 1.5) : ℤ) : ℚ))]
  else if str_lower exterior_type = "stone" ∨ str_lower exterior_type = "stucco"
      ∨ str_lower exterior_type = "eifs" then
    [("coverage_sqft", net_wall_area),
     ("net_wall_sqft", net_wall_area)]
  else
    [("net_wall_sqft", net_wall_area)]

/-- Per-category confidence scores of photo_analyzer.py. The Python dataclass
stores a dict read back with `.get(field, 0.5)`; the parser always populates
exactly these seven categories, so it is modelled as a record whose fields
default to 0.5. -/
@[ext]
structure FieldConfidence where
  building : ℚ := 0.5
  roof : ℚ := 0.5
  exterior : ℚ := 0.5
  windows : ℚ := 0.5
  doors : ℚ := 0.5
  garage : ℚ := 0.5
  features : ℚ := 0.5
  deriving DecidableEq

/-- photo_analyzer.py `PhotoAnalysisResult`, with the dataclass defaults. -/
@[ext]
structure PhotoAnalysisResult where
  building_type : String := "Unknown"
  architectural_style : String := "Unknown"
  estimated_age : String := "Unknown"
  condition : String := "Unknown"
  stories : ℤ := 1
  roof_style : String := "Unknown"
  roof_material : String := "Unknown"
  roof_condition : String := "Unknown"
  has_gutters : Bool := false
  has_chimney : Bool := false
  primary_exterior : String := "Unknown"
  secondary_exterior : String := "None"
  exterior_color : String := "Unknown"
  window_count : ℤ := 0
  window_style : String := "Unknown"
  window_material : String := "Unknown"
  estimated_window_size : String := "3x4 ft"
  door_count : ℤ := 0
  entry_door_material : String := "Unknown"
  has_storm_door : Bool := false
  estimated_door_size : String := "3x7 ft"
  has_garage : Bool := false
  garage_type : String := "None"
  garage_doors : ℤ := 0
  garage_door_width : String := "Unknown"
  has_porch : Bool := false
  porch_type : String := "None"
  has_deck : Bool := false
  deck_material : String := "None"
  has_dormers : Bool := false
  dormer_count : ℤ := 0
  special_features : List String := []
  field_confidence : FieldConfidence := {}
  overall_confidence : ℚ := 0.5
  analysis_notes : String := ""
  photo_quality : String := "medium"
  raw_response : String := ""
  error : Option String := none
  deriving DecidableEq

/-- photo_analyzer.py quality ranking `{"high": 3, "medium": 2, "low": 1}` with
`.get(q, 0)`. -/
def quality_rank (q : String) : ℕ :=
  if q = "high" then 3 else if q = "medium" then 2 else if q = "low" then 1 else 0

/-- Python `sep.join(strings)`. -/
def py_join (sep : String) : List String → String
  | [] => ""
  | [s] => s
  | s :: t :: rest => s ++ sep ++ py_join sep (t :: rest)

/-- Python `max(valid_results, key=lambda r: r.overall_confidence)`: the first
report attaining the maximal overall confidence. -/
def best_of (v : PhotoAnalysisResult) (vs : List PhotoAnalysisResult) :
    PhotoAnalysisResult :=
  vs.foldl (fun b r => if b.overall_confidence < r.overall_confidence then r else b) v

/-- The valid (error-free) reports of a list, photo_analyzer.py line 345. -/
def valid_filter (results : List PhotoAnalysisResult) : List PhotoAnalysisResult :=
  results.filter fun r => r.error.isNone

/-- The "Combine results" block of photo_analyzer.py `analyze_multiple`
(lines 352–435), applied to the non-empty list `v :: vs` of valid reports.
The merged `special_features` is Python's `list(set(...))`: duplicates
removed; the unspecified set iteration order is modelled as first-occurrence
order (`List.dedup`). -/
def combine_valid (v : PhotoAnalysisResult) (vs : List PhotoAnalysisResult) :
    PhotoAnalysisResult :=
  let valid := v :: vs
  let best := best_of v vs
  let n : ℚ := (valid.length : ℚ)
  let avg_confidence := (valid.map fun r => r.overall_confidence).sum / n
  { building_type := best.building_type
    architectural_style := best.architectural_style
    estimated_age := best.estimated_age
    condition := best.condition
    stories := (vs.map fun r => r.stories).foldl max v.stories
    roof_style := best.roof_style
    roof_material := best.roof_material
    roof_condition := best.roof_condition
    has_gutters := valid.any fun r => r.has_gutters
    has_chimney := valid.any fun r => r.has_chimney
    primary_exterior := best.primary_exterior
    secondary_exterior := best.secondary_exterior
    exterior_color := best.exterior_color
    window_count := (valid.map fun r => r.window_count).sum
    window_style := best.window_style
    window_material := best.window_material
    estimated_window_size := best.estimated_window_size
    door_count := (valid.map fun r => r.door_count).sum
    entry_door_material := best.entry_door_material
    has_storm_door := valid.any fun r => r.has_storm_door
    estimated_door_size := best.estimated_door_size
    has_garage := valid.any fun r => r.has_garage
    garage_type :=
      if best.has_garage then best.garage_type
      else ((valid.find? fun r => r.has_garage).map fun r => r.garage_type).getD "None"
    garage_doors := (vs.map fun r => r.garage_doors).foldl max v.garage_doors
    garage_door_width := best.garage_door_width
    has_porch := valid.any fun r => r.has_porch
    porch_type :=
      if best.has_porch then best.porch_type
      else ((valid.find? fun r => r.has_porch).map fun r => r.porch_type).getD "None"
    has_deck := valid.any fun r => r.has_deck
    deck_material :=
      if best.has_deck then best.deck_material
      else ((valid.find? fun r => r.has_deck).map fun r => r.deck_material).getD "None"
    has_dormers := valid.any fun r => r.has_dormers
    dormer_count := (valid.map fun r => r.dormer_count).sum
    special_features := (valid.foldl (fun acc r => acc ++ r.special_features) []).dedup
    field_confidence :=
      { building := (valid.map fun r => r.field_confidence.building).sum / n
        roof := (valid.map fun r => r.field_confidence.roof).sum / n
        exterior := (valid.map fun r => r.field_confidence.exterior).sum / n
        windows := (valid.map fun r => r.field_confidence.windows).sum / n
        doors := (valid.map fun r => r.field_confidence.doors).sum / n
        garage := (valid.map fun r => r.field_confidence.garage).sum / n
        features := (valid.map fun r => r.field_confidence.features).sum / n }
    overall_confidence := min 1 (avg_confidence * (1 + 0.1 * (n - 1)))
    analysis_notes :=
      py_join " | "
        (valid.filterMap fun r =>
          if r.analysis_notes = "" then none else some r.analysis_notes)
    photo_quality :=
      vs.foldl
        (fun q r => if quality_rank q < quality_rank r.photo_quality then r.photo_quality else q)
        v.photo_quality
    raw_response := ""
    error := none }

/-- Dispatch on the filtered valid list in photo_analyzer.py lines 347–435:
if no report is valid the first result `r0` is returned as-is, otherwise the
valid reports are combined. -/
def merge_valid (r0 : PhotoAnalysisResult) :
    List PhotoAnalysisResult → PhotoAnalysisResult
  | [] => r0
  | v :: vs => combine_valid v vs

/-- photo_analyzer.py `analyze_multiple`, as a function of the per-image
results: empty input produces the dedicated "No images provided" error report;
otherwise the error-free reports are filtered out and merged. -/
def analyze_multiple (results : List PhotoAnalysisResult) : PhotoAnalysisResult :=
  match results with
  | [] => { error := some "No images provided" }
  | r0 :: rest => merge_valid r0 (valid_filter (r0 :: rest))

/-! ### Helper lemmas about the aggregator -/

lemma analyze_multiple_all_invalid (r0 : PhotoAnalysisResult)
    (rest : List PhotoAnalysisResult) (h : valid_filter (r0 :: rest) = []) :
    analyze_multiple (r0 :: rest) = r0 := by
  show merge_valid r0 (valid_filter (r0 :: rest)) = r0
  rw [h]
  rfl

lemma analyze_multiple_valid (results : List PhotoAnalysisResult)
    (v : PhotoAnalysisResult) (vs : List PhotoAnalysisResult)
    (h : valid_filter results = v :: vs) :
    analyze_multiple results = combine_valid v vs := by
  cases results with
  | nil => exact absurd h (by rw [valid_filter]; simp)
  | cons r0 rest =>
    show merge_valid r0 (valid_filter (r0 :: rest)) = combine_valid v vs
    rw [h]
    rfl

lemma valid_any_iff (results : List PhotoAnalysisResult)
    (f : PhotoAnalysisResult → Bool) :
    ((valid_filter results).any f = true)
      ↔ ∃ r ∈ results, r.error = none ∧ f r = true := by
  rw [valid_filter, List.any_filter, List.any_eq_true]
  constructor
  · rintro ⟨r, hr, hb⟩
    rw [Bool.and_eq_true] at hb
    exact ⟨r, hr, Option.isNone_iff_eq_none.mp hb.1, hb.2⟩
  · rintro ⟨r, hr, he, hf⟩
    exact ⟨r, hr, by rw [Bool.and_eq_true]
                     exact ⟨Option.isNone_iff_eq_none.mpr he, hf⟩⟩

lemma le_foldl_max (x : ℤ) (l : List ℤ) : x ≤ l.foldl max x := by
  induction l generalizing x with
  | nil => exact le_refl x
  | cons a t ih => exact le_trans (le_max_left x a) (ih (max x a))

lemma le_foldl_max_of_mem (y : ℤ) (l : List ℤ) :
    ∀ x, y ∈ l → y ≤ l.foldl max x := by
  induction l with
  | nil => intro x hy; cases hy
  | cons a t ih =>
    intro x hy
    rcases List.mem_cons.mp hy with rfl | hy'
    · exact le_trans (le_max_right x y) (le_foldl_max (max x y) t)
    · exact ih (max x a) hy'

lemma foldl_max_mem (x : ℤ) (l : List ℤ) : l.foldl max x = x ∨ l.foldl max x ∈ l := by
  induction l generalizing x with
  | nil => exact Or.inl rfl
  | cons a t ih =>
    rcases ih (max x a) with h | h
    · rcases max_choice x a with hm | hm
      · exact Or.inl (by rw [List.foldl_cons, h, hm])
      · exact Or.inr (by rw [List.foldl_cons, h, hm]; exact List.mem_cons_self a t)
    · exact Or.inr (List.mem_cons_of_mem a h)

/-! ### Claims about the aggregator -/

/-- Claim C8: aggregation reports an error exactly when it has no usable data:
the empty list yields the dedicated "No images provided" error, an all-invalid
list yields the first input's error, and any list with a valid report merges
with no error; the function is total, so no exception crosses the boundary. -/
theorem C8_error_propagation :
    (analyze_multiple []).error = some "No images provided"
  ∧ (∀ (r0 : PhotoAnalysisResult) (rest : List PhotoAnalysisResult),
      (∀ r ∈ r0 :: rest, r.error ≠ none) →
      (analyze_multiple (r0 :: rest)).error = r0.error)
  ∧ (∀ results : List PhotoAnalysisResult,
      (∃ r ∈ results, r.error = none) →
      (analyze_multiple results).error = none) := by
  refine ⟨rfl, ?_, ?_⟩
  · intro r0 rest hall
    have hnil : valid_filter (r0 :: rest) = [] := by
      rw [valid_filter, List.filter_eq_nil_iff]
      intro a ha
      simpa [Option.isNone_iff_eq_none] using hall a ha
    rw [analyze_multiple_all_invalid r0 rest hnil]
  · intro results hex
    obtain ⟨r, hr, hre⟩ := hex
    have hne : valid_filter results ≠ [] := by
      rw [valid_filter, Ne, List.filter_eq_nil_iff]
      push_neg
      exact ⟨r, hr, by simp [hre]⟩
    obtain ⟨v, vs, hv⟩ : ∃ v vs, valid_filter results = v :: vs := by
      cases hvf : valid_filter results with
      | nil => exact absurd hvf hne
      | cons a t => exact ⟨a, t, rfl⟩
    rw [analyze_multiple_valid results v vs hv]
    rfl

/-- Failed report used by the C8 witness. -/
def rep_failed : PhotoAnalysisResult := { error := some "API error: boom" }

/-- Valid report used by the C8 witness. -/
def rep_ok : PhotoAnalysisResult := { stories := 2 }

/-- Witness for C8: a singleton all-invalid list propagates its error, and a
singleton valid list merges with no error. -/
theorem C8_error_propagation_witness :
    (analyze_multiple [rep_failed]).error = rep_failed.error
  ∧ (analyze_multiple [rep_ok]).error = none := by
  constructor
  · exact C8_error_propagation.2.1 rep_failed []
      (by intro r hr
          rw [List.mem_singleton] at hr
          subst hr
          simp [rep_failed])
  · exact C8_error_propagation.2.2 [rep_ok] ⟨rep_ok, List.mem_singleton.mpr rfl, rfl⟩

/-- Claim C5: each boolean presence flag of the merged report is the logical OR
of that flag over the valid input reports: the flag is true iff some error-free
input report has it true, independently of the highest-confidence report. -/
theorem C5_flags_or (results : List PhotoAnalysisResult) (v : PhotoAnalysisResult)
    (vs : List PhotoAnalysisResult) (h : valid_filter results = v :: vs) :
    ((analyze_multiple results).has_garage = true
      ↔ ∃ r ∈ results, r.error = none ∧ r.has_garage = true)
  ∧ ((analyze_multiple results).has_porch = true
      ↔ ∃ r ∈ results, r.error = none ∧ r.has_porch = true)
  ∧ ((analyze_multiple results).has_deck = true
      ↔ ∃ r ∈ results, r.error = none ∧ r.has_deck = true)
  ∧ ((analyze_multiple results).has_dormers = true
      ↔ ∃ r ∈ results, r.error = none ∧ r.has_dormers = true)
  ∧ ((analyze_multiple results).has_chimney = true
      ↔ ∃ r ∈ results, r.error = none ∧ r.has_chimney = true)
  ∧ ((analyze_multiple results).has_gutters = true
      ↔ ∃ r ∈ results, r.error = none ∧ r.has_gutters = true)
  ∧ ((analyze_multiple results).has_storm_door = true
      ↔ ∃ r ∈ results, r.error = none ∧ r.has_storm_door = true) := by
  rw [analyze_multiple_valid results v vs h]
  refine ⟨?_, ?_, ?_, ?_, ?_, ?_, ?_⟩
  · show ((v :: vs).any fun r => r.has_garage) = true ↔ _
    rw [← h]; exact valid_any_iff results _
  · show ((v :: vs).any fun r => r.has_porch) = true ↔ _
    rw [← h]; exact valid_any_iff results _
  · show ((v :: vs).any fun r => r.has_deck) = true ↔ _
    rw [← h]; exact valid_any_iff results _
  · show ((v :: vs).any fun r => r.has_dormers) = true ↔ _
    rw [← h]; exact valid_any_iff results _
  · show ((v :: vs).any fun r => r.has_chimney) = true ↔ _
    rw [← h]; exact valid_any_iff results _
  · show ((v :: vs).any fun r => r.has_gutters) = true ↔ _
    rw [← h]; exact valid_any_iff results _
  · show ((v :: vs).any fun r => r.has_storm_door) = true ↔ _
    rw [← h]; exact valid_any_iff results _

/-- Report with a garage and high confidence, used by the C5 witness. -/
def rep_garage : PhotoAnalysisResult := { has_garage := true, overall_confidence := 0.9 }

/-- Report with a porch and default confidence, used by the C5 witness. -/
def rep_porch : PhotoAnalysisResult := { has_porch := true }

/-- Witness for C5: merging a garage-only report (higher confidence) with a
porch-only report sets both flags, although the highest-confidence report has
`has_porch = false`. -/
theorem C5_flags_or_witness :
    (analyze_multiple [rep_garage, rep_porch]).has_garage = true
  ∧ (analyze_multiple [rep_garage, rep_porch]).has_porch = true := by
  have H := C5_flags_or [rep_garage, rep_porch] rep_garage [rep_porch] rfl
  exact ⟨H.1.mpr ⟨rep_garage, by simp, rfl, rfl⟩,
         H.2.1.mpr ⟨rep_porch, by simp, rfl, rfl⟩⟩

/-- Claim C6: over the valid reports `v :: vs`, the merged window, door and
dormer counts are sums, while the merged stories and garage-door counts are the
maxima (an attained upper bound). -/
theorem C6_counts (results : List PhotoAnalysisResult) (v : PhotoAnalysisResult)
    (vs : List PhotoAnalysisResult) (h : valid_filter results = v :: vs) :
    (analyze_multiple results).window_count = ((v :: vs).map fun r => r.window_count).sum
  ∧ (analyze_multiple results).door_count = ((v :: vs).map fun r => r.door_count).sum
  ∧ (analyze_multiple results).dormer_count = ((v :: vs).map fun r => r.dormer_count).sum
  ∧ ((analyze_multiple results).stories ∈ (v :: vs).map fun r => r.stories)
  ∧ (∀ r ∈ v :: vs, r.stories ≤ (analyze_multiple results).stories)
  ∧ ((analyze_multiple results).garage_doors ∈ (v :: vs).map fun r => r.garage_doors)
  ∧ (∀ r ∈ v :: vs, r.garage_doors ≤ (analyze_multiple results).garage_doors) := by
  rw [analyze_multiple_valid results v vs h]
  refine ⟨rfl, rfl, rfl, ?_, ?_, ?_, ?_⟩
  · show ((vs.map fun r => r.stories).foldl max v.stories) ∈ _
    rw [List.map_cons]
    rcases foldl_max_mem v.stories (vs.map fun r => r.stories) with h1 | h1
    · rw [h1]; exact List.mem_cons_self _ _
    · exact List.mem_cons_of_mem _ h1
  · intro r hr
    show r.stories ≤ (vs.map fun r => r.stories).foldl max v.stories
    rcases List.mem_cons.mp hr with rfl | hr'
    · exact le_foldl_max _ _
    · exact le_foldl_max_of_mem _ _ _ (List.mem_map_of_mem _ hr')
  · show ((vs.map fun r => r.garage_doors).foldl max v.garage_doors) ∈ _
    rw [List.map_cons]
    rcases foldl_max_mem v.garage_doors (vs.map fun r => r.garage_doors) with h1 | h1
    · rw [h1]; exact List.mem_cons_self _ _
    · exact List.mem_cons_of_mem _ h1
  · intro r hr
    show r.garage_doors ≤ (vs.map fun r => r.garage_doors).foldl max v.garage_doors
    rcases List.mem_cons.mp hr with rfl | hr'
    · exact le_foldl_max _ _
    · exact le_foldl_max_of_mem _ _ _ (List.mem_map_of_mem _ hr')

/-- Report with 5 windows and 1 story, used by the C6 witness. -/
def rep_w5 : PhotoAnalysisResult := { window_count := 5, stories := 1 }

/-- Report with 7 windows and 2 stories, used by the C6 witness. -/
def rep_w7 : PhotoAnalysisResult := { window_count := 7, stories := 2 }

/-- Witness for C6: window counts 5 and 7 merge to 12, stories 1 and 2 merge to
the maximum 2. -/
theorem C6_counts_witness :
    (analyze_multiple [rep_w5, rep_w7]).window_count = 12
  ∧ (analyze_multiple [rep_w5, rep_w7]).stories = 2 := by
  have H := C6_counts [rep_w5, rep_w7] rep_w5 [rep_w7] rfl
  constructor
  · rw [H.1]; decide
  · have hmem := H.2.2.2.1
    have hub := H.2.2.2.2.1 rep_w7 (by simp)
    simp only [List.map_cons, List.map_nil, List.mem_cons, List.not_mem_nil,
      or_false] at hmem
    rcases hmem with h1 | h1
    · exfalso
      rw [h1] at hub
      revert hub
      decide
    · rw [h1]; rfl

/-- Report with overall confidence 0.6, used by the C7 example and witness. -/
def rep_c06 : PhotoAnalysisResult := { overall_confidence := 0.6 }

/-- Claim C7: the merged overall confidence is the mean of the valid reports'
overall confidences boosted by `1 + 0.1 * (n_valid - 1)` and clamped at 1; in
particular two valid reports of confidence 0.6 merge to 0.66. -/
theorem C7_confidence (results : List PhotoAnalysisResult) (v : PhotoAnalysisResult)
    (vs : List PhotoAnalysisResult) (h : valid_filter results = v :: vs) :
    (analyze_multiple results).overall_confidence
      = min 1 ((((v :: vs).map fun r => r.overall_confidence).sum / ((v :: vs).length : ℚ))
          * (1 + 0.1 * (((v :: vs).length : ℚ) - 1)))
  ∧ (analyze_multiple [rep_c06, rep_c06]).overall_confidence = 0.66 := by
  constructor
  · rw [analyze_multiple_valid results v vs h]
    rfl
  · rw [analyze_multiple_valid [rep_c06, rep_c06] rep_c06 [rep_c06] rfl]
    rw [show (combine_valid rep_c06 [rep_c06]).overall_confidence
        = min 1 ((([rep_c06, rep_c06].map fun r => r.overall_confidence).sum
              / (([rep_c06, rep_c06].length : ℕ) : ℚ))
            * (1 + 0.1 * ((([rep_c06, rep_c06].length : ℕ) : ℚ) - 1))) from rfl]
    rw [min_eq_right (by norm_num [rep_c06])]
    norm_num [rep_c06]

/-- Witness for C7: the general confidence formula applied to the two concrete
reports of confidence 0.6. -/
theorem C7_confidence_witness :
    (analyze_multiple [rep_c06, rep_c06]).overall_confidence
      = min 1 ((([rep_c06, rep_c06].map fun r => r.overall_confidence).sum
            / (([rep_c06, rep_c06].length : ℚ)))
          * (1 + 0.1 * ((([rep_c06, rep_c06].length : ℚ)) - 1))) :=
  (C7_confidence [rep_c06, rep_c06] rep_c06 [rep_c06] rfl).1

/-- Valid report whose `garage_type` is set although `has_garage` is false
(reachable from a real API response with `garage.present = false` and
`garage.type = "Attached"`); refutes C4 as stated. -/
def c4_report : PhotoAnalysisResult := { garage_type := "Attached" }

/-- Counterexample to C4 as stated: aggregating the one-element list
`[c4_report]` (a valid report) does not return `c4_report` field-for-field —
its `garage_type` is replaced by "None" because `has_garage` is false. -/
theorem C4_counterexample :
    c4_report.error = none ∧ analyze_multiple [c4_report] ≠ c4_report := by
  refine ⟨rfl, fun hcontra => ?_⟩
  have hg := congrArg PhotoAnalysisResult.garage_type hcontra
  have hN : (analyze_multiple [c4_report]).garage_type = "None" := by
    rw [analyze_multiple_valid [c4_report] c4_report [] rfl]
    rfl
  rw [hN] at hg
  exact absurd hg (by decide)

/-- Claim C4 (amended): aggregating a one-element list of a valid report `r`
returns `r` unchanged in every field except the presence-conditional
descriptors (`garage_type`, `porch_type`, `deck_material`), which fall back to
"None" when the corresponding flag is false in `r`, and `raw_response`, which
is reset to the empty default. Hypotheses keep `r` in the documented domain:
overall confidence at most 1 and no duplicate special features. -/
theorem C4_single_aggregate (r : PhotoAnalysisResult) (he : r.error = none)
    (hoc : r.overall_confidence ≤ 1) (hnd : r.special_features.Nodup) :
    analyze_multiple [r] =
      { r with
        garage_type := if r.has_garage then r.garage_type else "None"
        porch_type := if r.has_porch then r.porch_type else "None"
        deck_material := if r.has_deck then r.deck_material else "None"
        raw_response := "" } := by
  have hv : valid_filter [r] = [r] := by
    rw [valid_filter]
    simp [he]
  rw [analyze_multiple_valid [r] r [] hv]
  ext
  all_goals first
    | rfl
    | (simp [combine_valid]; done)
    | (simp [combine_valid, he]; done)
    | (simp [combine_valid, List.dedup_eq_self.mpr hnd]; done)
    | (simp [combine_valid, min_eq_right hoc]; done)
    | (cases hg : r.has_garage <;> simp [combine_valid, best_of, List.find?, hg] <;> done)
    | (cases hp : r.has_porch <;> simp [combine_valid, best_of, List.find?, hp] <;> done)
    | (cases hd : r.has_deck <;> simp [combine_valid, best_of, List.find?, hd] <;> done)
    | (by_cases hn : r.analysis_notes = "" <;> simp [combine_valid, py_join, hn] <;> done)

/-- Valid in-domain report used by the C4 witness. -/
def c4_ok_report : PhotoAnalysisResult :=
  { has_garage := true, garage_type := "Attached", overall_confidence := 0.8,
    special_features := ["Solar Panels"], analysis_notes := "clear view" }

/-- Witness for C4 (amended) at a concrete valid report. -/
theorem C4_single_aggregate_witness :
    analyze_multiple [c4_ok_report] =
      { c4_ok_report with
        garage_type := if c4_ok_report.has_garage then c4_ok_report.garage_type else "None"
        porch_type := if c4_ok_report.has_porch then c4_ok_report.porch_type else "None"
        deck_material := if c4_ok_report.has_deck then c4_ok_report.deck_material else "None"
        raw_response := "" } :=
  C4_single_aggregate c4_ok_report rfl (by norm_num [c4_ok_report]) (by simp [c4_ok_report])

/-! ### Claims about the quantity takeoff engine -/

/-- Claim C2: `calculate_roof_area` returns `length*width*1.10` for flat roofs
independently of the pitch, and otherwise the footprint times the pitch
multiplier `sqrt(1 + (pitch/12)^2)` times the style factor: Gable 1.0,
Hip 1.12, Mansard/Gambrel 1.3, Shed 0.95, and the Gable factor 1.0 for any
unrecognized style. -/
theorem C2_roof_area (length width roof_pitch : ℝ) (roof_style : String)
    (hl : 0 < length) (hw : 0 < width) (hp : 0 ≤ roof_pitch) :
    (str_lower roof_style = "flat" →
      calculate_roof_area length width roof_style roof_pitch = length * width * 1.10)
  ∧ (str_lower roof_style = "gable" →
      calculate_roof_area length width roof_style roof_pitch
        = length * width * Real.sqrt (1 + (roof_pitch / 12) ^ 2))
  ∧ (str_lower roof_style = "hip" →
      calculate_roof_area length width roof_style roof_pitch
        = length * width * Real.sqrt (1 + (roof_pitch / 12) ^ 2) * 1.12)
  ∧ (str_lower roof_style = "mansard" ∨ str_lower roof_style = "gambrel" →
      calculate_roof_area length width roof_style roof_pitch
        = length * width * Real.sqrt (1 + (roof_pitch / 12) ^ 2) * 1.3)
  ∧ (str_lower roof_style = "shed" →
      calculate_roof_area length width roof_style roof_pitch
        = length * width * Real.sqrt (1 + (roof_pitch / 12) ^ 2) * 0.95)
  ∧ (str_lower roof_style ≠ "flat" → str_lower roof_style ≠ "gable" →
      str_lower roof_style ≠ "hip" → str_lower roof_style ≠ "mansard" →
      str_lower roof_style ≠ "gambrel" → str_lower roof_style ≠ "shed" →
      calculate_roof_area length width roof_style roof_pitch
        = length * width * Real.sqrt (1 + (roof_pitch / 12) ^ 2) * 1) := by
  refine ⟨?_, ?_, ?_, ?_, ?_, ?_⟩
  · intro h
    simp [calculate_roof_area, h]
  · intro h
    simp [calculate_roof_area, h]
  · intro h
    simp [calculate_roof_area, h]
  · rintro (h | h) <;> simp [calculate_roof_area, h]
  · intro h
    simp [calculate_roof_area, h]
  · intro h1 h2 h3 h4 h5 h6
    simp [calculate_roof_area, h1, h2, h3, h4, h5, h6]

/-- Witness for C2: a flat 3-by-4 roof at pitch 6 has area `3*4*1.10`. -/
theorem C2_roof_area_witness :
    calculate_roof_area 3 4 "Flat" 6 = 3 * 4 * 1.10 :=
  (C2_roof_area 3 4 6 "Flat" (by norm_num) (by norm_num) (by norm_num)).1 (by decide)

/-- The discrete ladder of standard HVAC tonnages in calculations.py
`calculate_hvac`. -/
def hvac_ladder : List ℚ := [1.5, 2, 2.5, 3, 3.5, 4, 5]

lemma calculate_hvac_tonnage (total_sqft : ℚ) (climate_zone : ℤ) :
    (calculate_hvac total_sqft climate_zone).tonnage =
      (if total_sqft * btu_per_sqft climate_zone / 12000 ≤ 1.5 then (1.5 : ℚ)
       else if total_sqft * btu_per_sqft climate_zone / 12000 ≤ 2 then 2
       else if total_sqft * btu_per_sqft climate_zone / 12000 ≤ 2.5 then 2.5
       else if total_sqft * btu_per_sqft climate_zone / 12000 ≤ 3 then 3
       else if total_sqft * btu_per_sqft climate_zone / 12000 ≤ 3.5 then 3.5
       else if total_sqft * btu_per_sqft climate_zone / 12000 ≤ 4 then 4
       else 5) := rfl

/-- Counterexample to C3 as stated: at 2000 sqft in climate zone 8 the computed
tons are `2000*50/12000 = 25/3 > 5`, but the returned tonnage saturates at the
largest ladder size 5, so the tonnage is strictly below the computed tons. -/
theorem C3_counterexample :
    (calculate_hvac 2000 8).tonnage < 2000 * btu_per_sqft 8 / 12000 := by
  rw [calculate_hvac_tonnage]
  norm_num [btu_per_sqft]

/-- Claim C3 (amended): whenever the computed tons `total_sqft * btu/12000` are
at most 5, the returned tonnage is the smallest ladder element that is at least
the computed tons (hence at least the computed tons); when the computed tons
exceed 5 the tonnage saturates at the largest ladder size 5. -/
theorem C3_hvac_tonnage (total_sqft : ℚ) (climate_zone : ℤ) (h : 0 < total_sqft) :
    (total_sqft * btu_per_sqft climate_zone / 12000 ≤ 5 →
      (calculate_hvac total_sqft climate_zone).tonnage ∈ hvac_ladder
      ∧ total_sqft * btu_per_sqft climate_zone / 12000
          ≤ (calculate_hvac total_sqft climate_zone).tonnage
      ∧ ∀ t ∈ hvac_ladder,
          total_sqft * btu_per_sqft climate_zone / 12000 ≤ t →
          (calculate_hvac total_sqft climate_zone).tonnage ≤ t)
  ∧ (5 < total_sqft * btu_per_sqft climate_zone / 12000 →
      (calculate_hvac total_sqft climate_zone).tonnage = 5) := by
  rw [calculate_hvac_tonnage]
  split_ifs with h1 h2 h3 h4 h5 h6 <;>
    refine ⟨fun hle => ⟨by norm_num [hvac_ladder], by linarith, fun t ht htt => ?_⟩,
      fun hgt => by linarith⟩ <;>
  · simp only [hvac_ladder, List.mem_cons, List.not_mem_nil, or_false] at ht
    rcases ht with rfl | rfl | rfl | rfl | rfl | rfl | rfl <;> linarith

/-- Witness for C3 (amended): 1000 sqft in climate zone 3 computes 11/6 tons,
and the returned tonnage is a ladder element at least that large. -/
theorem C3_hvac_tonnage_witness :
    (calculate_hvac 1000 3).tonnage ∈ hvac_ladder
  ∧ 1000 * btu_per_sqft 3 / 12000 ≤ (calculate_hvac 1000 3).tonnage := by
  have H := (C3_hvac_tonnage 1000 3 (by norm_num)).1 (by norm_num [btu_per_sqft])
  exact ⟨H.1, H.2.1⟩

/-- Claim C9: for fixed geometry and foundation type, the cubic yards of
foundation concrete are monotonically non-decreasing in the footer depth and in
the footer width. -/
theorem C9_foundation_monotone
    (length width footer_width footer_width' footer_depth footer_depth' slab_thickness : ℚ)
    (foundation_type : String) (hl : 0 < length) (hw : 0 < width) :
    (0 ≤ footer_width → footer_depth ≤ footer_depth' →
      (calculate_foundation_concrete length width foundation_type
          footer_width footer_depth slab_thickness).1
        ≤ (calculate_foundation_concrete length width foundation_type
          footer_width footer_depth' slab_thickness).1)
  ∧ (0 ≤ footer_depth → footer_width ≤ footer_width' →
      (calculate_foundation_concrete length width foundation_type
          footer_width footer_depth slab_thickness).1
        ≤ (calculate_foundation_concrete length width foundation_type
          footer_width' footer_depth slab_thickness).1) := by
  have hper : 0 < calculate_perimeter length width := by
    rw [calculate_perimeter]; linarith
  constructor
  · intro hfw hdd
    simp only [calculate_foundation_concrete]
    split_ifs <;>
    · rw [div_le_div_iff_of_pos_right (by norm_num : (0 : ℚ) < 27)]
      have := mul_le_mul_of_nonneg_left hdd
        (mul_nonneg hper.le hfw : (0 : ℚ) ≤ calculate_perimeter length width * footer_width)
      linarith
  · intro hfd hww
    simp only [calculate_foundation_concrete]
    split_ifs <;>
    · rw [div_le_div_iff_of_pos_right (by norm_num : (0 : ℚ) < 27)]
      have := mul_le_mul_of_nonneg_right
        (mul_le_mul_of_nonneg_left hww hper.le) hfd
      linarith

/-- Witness for C9: a 30-by-20 slab foundation at footer width 2, depth 1 uses
no more concrete than at depth 2, and no more than at width 3. -/
theorem C9_foundation_monotone_witness :
    (calculate_foundation_concrete 30 20 "slab" 2 1 0.33).1
      ≤ (calculate_foundation_concrete 30 20 "slab" 2 2 0.33).1
  ∧ (calculate_foundation_concrete 30 20 "slab" 2 1 0.33).1
      ≤ (calculate_foundation_concrete 30 20 "slab" 3 1 0.33).1 := by
  have H := C9_foundation_monotone 30 20 2 3 1 2 0.33 "slab" (by norm_num) (by norm_num)
  exact ⟨H.1 (by norm_num) (by norm_num), H.2 (by norm_num) (by norm_num)⟩

/-- Claim C10: the roof sheathing sheet count of `calculate_framing_lumber` is
computed from the gable roof area at the default pitch 6.0 —
`ceil(roof_area / (32*0.90))` — for every building, regardless of its actual
roof style or pitch (which `calculate_framing_lumber` does not even receive). -/
theorem C10_roof_sheathing_gable (length width : ℝ) (stories : ℤ)
    (wall_height stud_spacing : ℝ) :
    (calculate_framing_lumber length width stories wall_height stud_spacing).roof_sheathing_sheets
      = ⌈calculate_roof_area length width "gable" 6.0 / (32 * 0.90)⌉ := rfl

lemma pytrunc_nonneg {α : Type} [LinearOrderedField α] [FloorRing α] (x : α)
    (h : 0 ≤ x) : 0 ≤ pytrunc x := by
  rw [pytrunc, if_pos h]
  exact Int.floor_nonneg.mpr h

lemma calculate_roof_area_nonneg (length width : ℝ) (roof_style : String)
    (roof_pitch : ℝ) (hl : 0 ≤ length) (hw : 0 ≤ width) :
    0 ≤ calculate_roof_area length width roof_style roof_pitch := by
  simp only [calculate_roof_area]
  split_ifs <;>
    first
      | exact mul_nonneg (mul_nonneg hl hw) (by positivity)
      | exact mul_nonneg (mul_nonneg (mul_nonneg hl hw) (Real.sqrt_nonneg _)) (by norm_num)

/-- Counterexample to C1 as stated: a 10-by-10 single-story building with
8-foot walls and 30 windows is in-domain, yet the `net_wall_sqft` entry of
`calculate_exterior_materials` is `320 - 450 = -130 < 0`. -/
theorem C1_counterexample :
    ("net_wall_sqft", (-130 : ℚ)) ∈ calculate_exterior_materials 10 10 8 1 "Metal" 30 0
  ∧ (-130 : ℚ) < 0 := by
  constructor
  · simp only [calculate_exterior_materials]
    rw [if_neg (by decide), if_neg (by decide), if_neg (by decide)]
    refine List.mem_singleton.mpr ?_
    simp only [Prod.mk.injEq, true_and]
    rw [calculate_exterior_wall_area, calculate_perimeter]
    norm_num
  · norm_num

/-- Claim C1 (amended): every numeric entry of `calculate_framing_lumber` is
non-negative for in-domain inputs, and every entry of
`calculate_exterior_materials` is non-negative provided the fixed opening
allowance `15*window_count + 20*door_count` does not exceed the gross exterior
wall area; without that proviso `net_wall_sqft` can be negative. -/
theorem C1_nonneg :
    (∀ (length width wall_height stud_spacing : ℝ) (stories : ℤ),
      0 < length → 0 < width → 0 < wall_height → 1 ≤ stories → 0 < stud_spacing →
      0 ≤ (calculate_framing_lumber length width stories wall_height stud_spacing).studs_2x4
      ∧ 0 ≤ (calculate_framing_lumber length width stories wall_height stud_spacing).studs_2x6
      ∧ 0 ≤ (calculate_framing_lumber length width stories wall_height stud_spacing).plates_2x4_lf
      ∧ 0 ≤ (calculate_framing_lumber length width stories wall_height stud_spacing).headers_2x12_lf
      ∧ 0 ≤ (calculate_framing_lumber length width stories wall_height stud_spacing).floor_joists
      ∧ 0 ≤ (calculate_framing_lumber length width stories wall_height stud_spacing).rim_joist_lf
      ∧ 0 ≤ (calculate_framing_lumber length width stories wall_height stud_spacing).rafters
      ∧ 0 ≤ (calculate_framing_lumber length width stories wall_height stud_spacing).wall_sheathing_sheets
      ∧ 0 ≤ (calculate_framing_lumber length width stories wall_height stud_spacing).roof_sheathing_sheets
      ∧ 0 ≤ (calculate_framing_lumber length width stories wall_height stud_spacing).floor_sheathing_sheets)
  ∧ (∀ (length width wall_height : ℚ) (stories window_count door_count : ℤ)
        (exterior_type : String),
      0 < length → 0 < width → 0 < wall_height → 1 ≤ stories →
      (window_count : ℚ) * 15 + (door_count : ℚ) * 20
          ≤ calculate_exterior_wall_area length width wall_height stories →
      ∀ p ∈ calculate_exterior_materials length width wall_height stories
          exterior_type window_count door_count, 0 ≤ p.2) := by
  constructor
  · intro length width wall_height stud_spacing stories hl hw hh hs hss
    have hstz : (0 : ℤ) ≤ stories := by linarith
    have hst : (0 : ℝ) ≤ (stories : ℝ) := by exact_mod_cast hstz
    have hper : (0 : ℝ) ≤ calculate_perimeter length width := by
      rw [calculate_perimeter]; linarith
    have hfa : (0 : ℝ) ≤ calculate_floor_area length width := by
      rw [calculate_floor_area]; exact mul_nonneg hl.le hw.le
    have hfa8 : (0 : ℝ) ≤ calculate_floor_area length width * 0.8 :=
      mul_nonneg hfa (by norm_num)
    have htw : (0 : ℝ) ≤ (calculate_perimeter length width
        + calculate_floor_area length width * 0.8) * (stories : ℝ) :=
      mul_nonneg (by linarith) hst
    have hspl : (0 : ℝ) ≤ 1 / (stud_spacing / 12) :=
      div_nonneg zero_le_one (div_nonneg hss.le (by norm_num))
    have hjo : (0 : ℝ) ≤ length / (16 / 12) := div_nonneg hl.le (by norm_num)
    have hwall : (0 : ℝ) ≤ calculate_exterior_wall_area length width wall_height stories := by
      rw [calculate_exterior_wall_area]
      exact mul_nonneg (mul_nonneg hper hh.le) hst
    refine ⟨?_, ?_, ?_, ?_, ?_, ?_, ?_, ?_, ?_, ?_⟩ <;>
      simp only [calculate_framing_lumber]
    · split_ifs with h9
      · exact pytrunc_nonneg _ (mul_nonneg (mul_nonneg htw hspl) (by norm_num))
      · exact le_refl 0
    · split_ifs with h9
      · exact pytrunc_nonneg _ (mul_nonneg (mul_nonneg htw hspl) (by norm_num))
      · exact le_refl 0
    · exact pytrunc_nonneg _ (mul_nonneg htw (by norm_num))
    · exact pytrunc_nonneg _ (mul_nonneg htw (by norm_num))
    · exact mul_nonneg (by linarith [pytrunc_nonneg _ hjo]) hstz
    · exact pytrunc_nonneg _ (mul_nonneg hper hst)
    · exact mul_nonneg (by linarith [pytrunc_nonneg _ hjo]) (by norm_num)
    · exact Int.ceil_nonneg (div_nonneg hwall (by norm_num))
    · exact Int.ceil_nonneg
        (div_nonneg (calculate_roof_area_nonneg length width "gable" 6.0 hl.le hw.le)
          (by norm_num))
    · exact Int.ceil_nonneg (div_nonneg (mul_nonneg hfa hst) (by norm_num))
  · intro length width wall_height stories window_count door_count exterior_type
      hl hw hh hs hop p hp
    have hstz : (0 : ℤ) ≤ stories := by linarith
    have hstq : (0 : ℚ) ≤ (stories : ℚ) := by exact_mod_cast hstz
    have hper : (0 : ℚ) ≤ calculate_perimeter length width := by
      rw [calculate_perimeter]; linarith
    have hnet : (0 : ℚ) ≤ calculate_exterior_wall_area length width wall_height stories
        - (window_count : ℚ) * 15 - (door_count : ℚ) * 20 := by linarith
    simp only [calculate_exterior_materials] at hp
    split_ifs at hp <;>
      simp only [List.mem_cons, List.not_mem_nil, or_false] at hp
    · rcases hp with rfl | rfl | rfl | rfl
      · exact Int.cast_nonneg.mpr
          (Int.ceil_nonneg (mul_nonneg (div_nonneg hnet (by norm_num)) (by norm_num)))
      · exact hnet
      · exact mul_nonneg (mul_nonneg hper hstq) (by norm_num)
      · exact mul_nonneg (by norm_num) hstq
    · rcases hp with rfl | rfl | rfl | rfl
      · exact Int.cast_nonneg.mpr
          (pytrunc_nonneg _ (mul_nonneg (mul_nonneg hnet (by norm_num)) (by norm_num)))
      · exact Int.cast_nonneg.mpr (Int.ceil_nonneg (div_nonneg
          (Int.cast_nonneg.mpr
            (pytrunc_nonneg _ (mul_nonneg (mul_nonneg hnet (by norm_num)) (by norm_num))))
          (by norm_num)))
      · exact hnet
      · exact Int.cast_nonneg.mpr (pytrunc_nonneg _ (mul_nonneg hnet (by norm_num)))
    · rcases hp with rfl | rfl
      · exact hnet
      · exact hnet
    · rcases hp with rfl
      exact hnet

/-- Witness for C1 (amended): a 30-by-40 two-story framing takeoff has a
non-negative stud count, and a 30-by-40 single-story building with 4 windows
and 2 doors (openings 140 sqft, wall 1120 sqft) has a non-negative
`net_wall_sqft` entry. -/
theorem C1_nonneg_witness :
    0 ≤ (calculate_framing_lumber 30 40 2 9 16).studs_2x4
  ∧ 0 ≤ (("net_wall_sqft", (1020 : ℚ)) : String × ℚ).2 := by
  constructor
  · exact (C1_nonneg.1 30 40 9 16 2 (by norm_num) (by norm_num) (by norm_num)
      (by norm_num) (by norm_num)).1
  · refine C1_nonneg.2 30 40 8 1 4 2 "Metal" (by norm_num) (by norm_num) (by norm_num)
      (by norm_num) ?_ ("net_wall_sqft", (1020 : ℚ)) ?_
    · rw [calculate_exterior_wall_area, calculate_perimeter]
      norm_num
    · simp only [calculate_exterior_materials]
      rw [if_neg (by decide), if_neg (by decide), if_neg (by decide)]
      refine List.mem_singleton.mpr ?_
      simp only [Prod.mk.injEq, true_and]
      rw [calculate_exterior_wall_area, calculate_perimeter]
      norm_num

end BuildingEstimator
